import Mathlib

/-!
Verification of `ubuntu-raid-cli` (`src/ubuntu_raid_cli/raid_manager.py`).

The module orchestrates external privileged tools (`parted`, `mdadm`,
`mkfs.ext4`, `mount`, `umount`, `blkid`, `smartctl`, `blockdev`, `cp`,
`update-initramfs`) and edits `/etc/fstab`.  We embed it shallowly:

* every external interaction (command invocation, confirmation prompt,
  fstab file write) is recorded in a trace of `ExtCall` events;
* the only state owned by the program is the persistent mount table
  (`/etc/fstab`), modelled as a list of lines (`St`);
* oracle answers (command stdout, prompt answers, command failures) come
  from an `Env`; a `none`/failing answer models a raised exception;
* a computation is `M α = St → St × List ExtCall × Option α`, where the
  `Option` result is `none` exactly when a Python exception escapes.

Python string primitives (`split`, `strip`, `lower`, `startswith`,
`in`, `int(...)`) are re-implemented by structural recursion over
`List Char` so that all definitions evaluate inside the kernel.
-/

namespace RaidCli

/-! ## Python string primitives -/

/-- The character list of a string. -/
def chars (s : String) : List Char := s.data

/-- Build a string back from its characters. -/
def ofChars (l : List Char) : String := String.mk l

/-- Does `needle` occur at the start of `hay`?  (`str.startswith`). -/
def listStarts : List Char → List Char → Bool
  | [], _ => true
  | _ :: _, [] => false
  | a :: as, b :: bs => a == b && listStarts as bs

/-- Does `needle` occur anywhere in `hay`?  (Python `in` on strings). -/
def listSub (needle : List Char) : List Char → Bool
  | [] => needle.isEmpty
  | c :: cs => listStarts needle (c :: cs) || listSub needle cs

/-- Python `needle in hay` for strings. -/
def containsStr (needle hay : String) : Bool := listSub (chars needle) (chars hay)

/-- Python `s.startswith(pre)`. -/
def pyStarts (pre s : String) : Bool := listStarts (chars pre) (chars s)

/-- Split a character list at every occurrence of `sep`
(Python `str.split(sep)` for a one-character separator). -/
def splitChar (sep : Char) : List Char → List (List Char)
  | [] => [[]]
  | c :: cs =>
    if c == sep then [] :: splitChar sep cs
    else
      match splitChar sep cs with
      | [] => [[c]]
      | p :: ps => (c :: p) :: ps

/-- Python `s.split(sep)` for a one-character separator string. -/
def pySplitOn (sep : Char) (s : String) : List String :=
  (splitChar sep (chars s)).map ofChars

/-- `result.stdout.split("\n")`. -/
def pyLines (s : String) : List String := pySplitOn '\n' s

/-- Split at every character satisfying `p`, keeping empty pieces. -/
def splitPred (p : Char → Bool) : List Char → List (List Char)
  | [] => [[]]
  | c :: cs =>
    if p c then [] :: splitPred p cs
    else
      match splitPred p cs with
      | [] => [[c]]
      | q :: qs => (c :: q) :: qs

/-- Python `s.split()` with no argument: split on whitespace runs,
dropping empty pieces. -/
def pySplitWs (s : String) : List String :=
  ((splitPred Char.isWhitespace (chars s)).map ofChars).filter (fun x => x ≠ "")

/-- Python `s.strip()`. -/
def pyStrip (s : String) : String :=
  ofChars ((((chars s).dropWhile Char.isWhitespace).reverse.dropWhile
    Char.isWhitespace).reverse)

/-- Python `s.lower()` (ASCII, which covers all text this program inspects). -/
def pyLower (s : String) : String := ofChars ((chars s).map Char.toLower)

/-- Python `s.strip("()")`. -/
def isParen (c : Char) : Bool := c == '(' || c == ')'

/-- Python `s.strip("()")`. -/
def stripParens (s : String) : String :=
  ofChars ((((chars s).dropWhile isParen).reverse.dropWhile isParen).reverse)

/-- Decimal digit value of a character, if any. -/
def digitVal (c : Char) : Option Nat :=
  if 48 ≤ c.toNat && c.toNat ≤ 57 then some (c.toNat - 48) else none

/-- Accumulate decimal digits; `none` on any non-digit. -/
def digitsToNat : List Char → Nat → Option Nat
  | [], acc => some acc
  | c :: cs, acc =>
    match digitVal c with
    | none => none
    | some d => digitsToNat cs (10 * acc + d)

/-- Python `int(s)` on a stripped string: optional sign then decimal
digits; `none` models the `ValueError`. -/
def pyInt (s : String) : Option Int :=
  match chars (pyStrip s) with
  | [] => none
  | '-' :: ds =>
    match ds with
    | [] => none
    | _ :: _ => (digitsToNat ds 0).map (fun n => -(n : Int))
  | '+' :: ds =>
    match ds with
    | [] => none
    | _ :: _ => (digitsToNat ds 0).map (fun n => (n : Int))
  | ds => (digitsToNat ds 0).map (fun n => (n : Int))

/-! ## External-call alphabet, state, and the effect monad -/

/-- Identity of a confirmation prompt (`Confirm.ask` call sites). -/
inductive PromptTag where
  | initial
  | healthOverride (disk : String)
  | sizeOverride
  | remountUnhealthy
deriving DecidableEq

/-- One externally observable interaction of the program. -/
inductive ExtCall where
  | confirm (tag : PromptTag)
  | smartctl (disk : String)
  | blockdev (disk : String)
  | blkid (dev : String)
  | mdadmDetail (dev : String)
  | mountCmd
  | partedMklabel (disk : String)
  | partedMkpart (disk : String)
  | partedSetRaid (disk : String)
  | mdadmCreate (parts : List String) (level : Nat) (dev : String)
  | mkfs (dev : String)
  | makedirs (path : String)
  | mount (dev mp : String)
  | mountAll
  | umount (dev : String)
  | fstabBackup
  | fstabWrite
  | mdadmScan
  | updateInitramfs
  | mdadmStop (dev : String)
  | zeroSuperblock (disk : String)
deriving DecidableEq

/-- Calls that mutate external system state.  Prompts and read-only
queries (`smartctl`, `blockdev`, `blkid`, `mdadm --detail`, `mount`
listing) are not mutating. -/
def isMutating : ExtCall → Bool
  | ExtCall.confirm _ => false
  | ExtCall.smartctl _ => false
  | ExtCall.blockdev _ => false
  | ExtCall.blkid _ => false
  | ExtCall.mdadmDetail _ => false
  | ExtCall.mountCmd => false
  | _ => true

/-- Persistent state owned by the program: the `/etc/fstab` lines. -/
structure St where
  fstab : List String
deriving DecidableEq

/-- Effectful computation: threads the fstab state, records the trace of
external calls, and returns `none` when a Python exception escapes. -/
abbrev M (α : Type) : Type := St → St × List ExtCall × Option α

def mPure {α : Type} (a : α) : M α := fun s => (s, [], some a)

/-- A raised exception. -/
def mThrow {α : Type} : M α := fun s => (s, [], none)

/-- Sequencing; an exception short-circuits but keeps the trace so far. -/
def mBind {α β : Type} (x : M α) (f : α → M β) : M β := fun s =>
  match x s with
  | (s1, t, none) => (s1, t, none)
  | (s1, t, some a) =>
    match f a s1 with
    | (s2, t2, r) => (s2, t ++ t2, r)

/-- `try ... except: return d` around a whole computation. -/
def catchD {α : Type} (d : α) (x : M α) : M α := fun s =>
  match x s with
  | (s1, t, none) => (s1, t, some d)
  | r => r

/-- Oracle answers for the external world.  A `none` stdout, or a
`cmdFails` result of `true`, models the external tool raising. -/
structure Env where
  confirmAnswer : PromptTag → Bool
  smartctl : String → Option String
  blockdevSize : String → Option Int
  blkid : String → Option String
  mdadmDetail : String → Option String
  mountList : Option String
  cmdFails : ExtCall → Bool

/-- `Confirm.ask(...)`: records the prompt, answers from the oracle. -/
def ask (env : Env) (t : PromptTag) : M Bool := fun s =>
  (s, [ExtCall.confirm t], some (env.confirmAnswer t))

/-- `run_command` for a command used only for its effect. -/
def runCmd (env : Env) (c : ExtCall) : M Unit := fun s =>
  (s, [c], if env.cmdFails c then none else some ())

def qSmartctl (env : Env) (disk : String) : M String := fun s =>
  (s, [ExtCall.smartctl disk], env.smartctl disk)

def qBlockdev (env : Env) (disk : String) : M Int := fun s =>
  (s, [ExtCall.blockdev disk], env.blockdevSize disk)

def qBlkid (env : Env) (dev : String) : M String := fun s =>
  (s, [ExtCall.blkid dev], env.blkid dev)

def qDetail (env : Env) (dev : String) : M String := fun s =>
  (s, [ExtCall.mdadmDetail dev], env.mdadmDetail dev)

def qMountList (env : Env) : M String := fun s =>
  (s, [ExtCall.mountCmd], env.mountList)

/-- Appending one line to `/etc/fstab` (lines 135-136 of the source). -/
def appendEntryLines (lines : List String) (entry : String) : List String :=
  lines ++ [entry]

def appendFstab (entry : String) : M Unit := fun s =>
  (St.mk (appendEntryLines s.fstab entry), [ExtCall.fstabWrite], some ())

def getFstab : M (List String) := fun s => (s, [], some s.fstab)

def writeFstab (lines : List String) : M Unit := fun _ =>
  (St.mk lines, [ExtCall.fstabWrite], some ())

/-! ## `raid_manager.py`, method by method -/

/-- `RAIDManager._check_disk_health` (lines 238-244): `smartctl -H`;
`"PASSED" in stdout`; any exception ⇒ `True` (fail-open). -/
def check_disk_health (env : Env) (disk : String) : M Bool :=
  catchD true (mBind (qSmartctl env disk) (fun out =>
    mPure (containsStr "PASSED" out)))

/-- The `for disk in disks` loop of `_check_disk_sizes` (lines 249-252):
query `blockdev --getsize64` per disk, collect `int(stdout.strip())`. -/
def collectSizes (env : Env) : List String → M (List Int)
  | [] => mPure []
  | d :: ds =>
    mBind (qBlockdev env d) (fun n =>
    mBind (collectSizes env ds) (fun rest =>
    mPure (n :: rest)))

/-- `len(set(sizes)) == 1` (line 254). -/
def sizesCheck (sizes : List Int) : Bool := sizes.dedup.length == 1

/-- `RAIDManager._check_disk_sizes` (lines 246-256): any exception ⇒
`False` (fail-closed). -/
def check_disk_sizes (env : Env) (disks : List String) : M Bool :=
  catchD false (mBind (collectSizes env disks) (fun sizes =>
    mPure (sizesCheck sizes)))

/-- The `min_disks` dict lookup (lines 34-41); `none` is the `KeyError`
raised for a level outside the table. -/
def min_disks (level : Nat) : Option Nat :=
  if level = 0 then some 2
  else if level = 1 then some 2
  else if level = 5 then some 3
  else if level = 6 then some 4
  else none

/-- `RAIDManager._create_partition` (lines 76-85): three `parted` calls. -/
def create_partition (env : Env) (disk : String) : M Unit :=
  mBind (runCmd env (ExtCall.partedMklabel disk)) (fun _ =>
  mBind (runCmd env (ExtCall.partedMkpart disk)) (fun _ =>
  runCmd env (ExtCall.partedSetRaid disk)))

/-- The `for disk in disks: self._create_partition(disk)` loop (lines 51-52). -/
def partitionAll (env : Env) : List String → M Unit
  | [] => mPure ()
  | d :: ds => mBind (create_partition env d) (fun _ => partitionAll env ds)

/-- `RAIDManager._create_raid_array` (lines 87-97): partitions are
`disk + "1"`, in the caller-supplied order. -/
def create_raid_array (env : Env) (disks : List String) (level : Nat)
    (dev : String) : M Unit :=
  runCmd env (ExtCall.mdadmCreate (disks.map (fun d => d ++ "1")) level dev)

/-- `RAIDManager._create_filesystem` (lines 99-101). -/
def create_filesystem (env : Env) (dev : String) : M Unit :=
  runCmd env (ExtCall.mkfs dev)

/-- `RAIDManager._mount_raid` (lines 103-106). -/
def mount_raid (env : Env) (dev mp : String) : M Unit :=
  mBind (runCmd env (ExtCall.makedirs mp)) (fun _ =>
  runCmd env (ExtCall.mount dev mp))

/-- The parsing loop of `_get_raid_level` (lines 149-160): scan lines for
`"Raid Level"`, read `line.split(":")[1].strip().lower()`, test the
substrings `raid0`, `raid1`, `raid5`, `raid6` in that order and return at
the first hit; fall through otherwise; `some 0` at the end of the text;
`none` is the `IndexError` when the line has no `":"`. -/
def parseRaidLevel : List String → Option Nat
  | [] => some 0
  | line :: rest =>
    if containsStr "Raid Level" line then
      match (pySplitOn ':' line)[1]? with
      | none => none
      | some v =>
        let lv := pyLower (pyStrip v)
        if containsStr "raid0" lv then some 0
        else if containsStr "raid1" lv then some 1
        else if containsStr "raid5" lv then some 5
        else if containsStr "raid6" lv then some 6
        else parseRaidLevel rest
    else parseRaidLevel rest

/-- `RAIDManager._get_raid_level` (lines 145-162): any exception ⇒ `0`. -/
def get_raid_level (env : Env) (dev : String) : M Nat :=
  catchD 0 (mBind (qDetail env dev) (fun out =>
    match parseRaidLevel (pyLines out) with
    | none => mThrow
    | some n => mPure n))

/-- Pure value of `_get_raid_level` given the oracle (for statements). -/
def raidLevelPure (env : Env) (dev : String) : Nat :=
  match env.mdadmDetail dev with
  | none => 0
  | some out => (parseRaidLevel (pyLines out)).getD 0

/-- The mount-option string of `_update_fstab` (lines 118-125). -/
def mount_options_for (raid_level : Nat) : String :=
  "defaults" ++
    (if raid_level ∈ ([1, 5, 6] : List Nat) then
      ",nofail,x-systemd.device-timeout=5"
    else
      ",nofail,x-systemd.device-timeout=3")

/-- The `fstab_entry` string of `_update_fstab` (line 128), without the
trailing newline (the state holds one line per list element). -/
def fstab_entry_for (uuid mp : String) (raid_level : Nat) : String :=
  "UUID=" ++ uuid ++ " " ++ mp ++ " ext4 " ++ mount_options_for raid_level ++ " 0 0"

/-- `RAIDManager._update_fstab` (lines 108-143): resolve the UUID, re-query
the actual RAID level, back up `/etc/fstab` (`cp`), append the new entry.
The `except` clause re-raises, so exceptions propagate unchanged. -/
def update_fstab (env : Env) (dev mp : String) : M Unit :=
  mBind (qBlkid env dev) (fun uuidOut =>
  mBind (get_raid_level env dev) (fun raid_level =>
  mBind (runCmd env ExtCall.fstabBackup) (fun _ =>
  appendFstab (fstab_entry_for (pyStrip uuidOut) mp raid_level))))

/-- `RAIDManager._update_system` (lines 164-170). -/
def update_system (env : Env) : M Unit :=
  mBind (runCmd env ExtCall.mdadmScan) (fun _ =>
  runCmd env ExtCall.updateInitramfs)

/-- The per-disk health loop of `setup_raid` (lines 28-31): an unhealthy
disk needs an override confirmation; declining aborts with `False`. -/
def checkHealthLoop (env : Env) : List String → M Bool
  | [] => mPure true
  | d :: ds =>
    mBind (check_disk_health env d) (fun ok =>
    if ok then checkHealthLoop env ds
    else
      mBind (ask env (PromptTag.healthOverride d)) (fun ov =>
      if ov then checkHealthLoop env ds else mPure false))

/-- `RAIDManager.setup_raid` (lines 19-74). -/
def setup_raid (env : Env) (disks : List String) (level : Nat)
    (dev mp : String) : M Bool :=
  catchD false (
    mBind (ask env PromptTag.initial) (fun ok =>
    if ok then
      mBind (checkHealthLoop env disks) (fun hOk =>
      if hOk then
        match min_disks level with
        | none => mThrow
        | some m =>
          if disks.length < m then mPure false
          else
            mBind (check_disk_sizes env disks) (fun sOk =>
            mBind (if sOk then mPure true else ask env PromptTag.sizeOverride)
              (fun proceed =>
            if proceed then
              mBind (partitionAll env disks) (fun _ =>
              mBind (create_raid_array env disks level dev) (fun _ =>
              mBind (create_filesystem env dev) (fun _ =>
              mBind (mount_raid env dev mp) (fun _ =>
              mBind (update_fstab env dev mp) (fun _ =>
              mBind (update_system env) (fun _ =>
              mPure true))))))
            else mPure false))
      else mPure false)
    else mPure false))

/-- The member-disk parsing of `_get_raid_disks` (lines 192-201): lines
starting with four spaces whose stripped whitespace-split has at least 7
fields and whose first field starts with `/dev/`. -/
def parseRaidDisks : List String → List String
  | [] => []
  | line :: rest =>
    if pyStarts "    " line then
      let parts := pySplitWs (pyStrip line)
      if 7 ≤ parts.length && pyStarts "/dev/" (parts.getD 0 "") then
        parts.getD 0 "" :: parseRaidDisks rest
      else parseRaidDisks rest
    else parseRaidDisks rest

/-- `RAIDManager._get_raid_disks` (lines 192-201). -/
def get_raid_disks (env : Env) (dev : String) : M (List String) :=
  mBind (qDetail env dev) (fun out => mPure (parseRaidDisks (pyLines out)))

/-- The `mdadm --zero-superblock` loop of `remove_raid` (lines 179-180). -/
def zeroSuperblocks (env : Env) : List String → M Unit
  | [] => mPure ()
  | d :: ds =>
    mBind (runCmd env (ExtCall.zeroSuperblock d)) (fun _ =>
    zeroSuperblocks env ds)

/-- The rewrite loop of `_remove_from_fstab` (lines 211-214): keep every
line that does NOT contain the UUID as a substring. -/
def removeLinesForUuid (uuid : String) (lines : List String) : List String :=
  lines.filter (fun line => !(containsStr uuid line))

/-- `RAIDManager._remove_from_fstab` (lines 203-214). -/
def remove_from_fstab (env : Env) (dev : String) : M Unit :=
  mBind (qBlkid env dev) (fun uuidOut =>
  mBind getFstab (fun lines =>
  writeFstab (removeLinesForUuid (pyStrip uuidOut) lines)))

/-- `RAIDManager.remove_raid` (lines 172-190). -/
def remove_raid (env : Env) (dev : String) : M Bool :=
  catchD false (
    mBind (runCmd env (ExtCall.mdadmStop dev)) (fun _ =>
    mBind (get_raid_disks env dev) (fun disks =>
    mBind (zeroSuperblocks env disks) (fun _ =>
    mBind (remove_from_fstab env dev) (fun _ =>
    mPure true)))))

/-- `RAIDManager.change_mount_point` (lines 216-236): umount, create the
new directory, mount there, then `_update_fstab` — nothing removes the
entry for the old mount point. -/
def change_mount_point (env : Env) (dev newMp : String) : M Bool :=
  catchD false (
    mBind (runCmd env (ExtCall.umount dev)) (fun _ =>
    mBind (runCmd env (ExtCall.makedirs newMp)) (fun _ =>
    mBind (runCmd env (ExtCall.mount dev newMp)) (fun _ =>
    mBind (update_fstab env dev newMp) (fun _ =>
    mPure true)))))

/-- Live mount snapshot parsed from the `mount` listing (lines 354-370). -/
structure MountInfo where
  device : String
  mountpoint : String
  fstype : String
  options : List String
deriving DecidableEq

/-- `if device_name in line` over the `mount` output lines (first hit). -/
def findMountLine (dev : String) : List String → Option String
  | [] => none
  | line :: rest =>
    if containsStr dev line then some line else findMountLine dev rest

/-- Field extraction of `_get_mount_info` (lines 361-367); `none` is the
`IndexError` on a line with fewer than 6 whitespace-separated fields. -/
def parseMountLine (line : String) : Option MountInfo :=
  let parts := pySplitWs line
  match parts[0]?, parts[2]?, parts[4]?, parts[5]? with
  | some d, some mp, some ft, some op =>
    some (MountInfo.mk d mp (stripParens ft) (pySplitOn ',' (stripParens op)))
  | _, _, _, _ => none

/-- `RAIDManager._get_mount_info` (lines 354-370): any exception ⇒ `None`. -/
def get_mount_info (env : Env) (dev : String) : M (Option MountInfo) :=
  catchD none (mBind (qMountList env) (fun out =>
    match findMountLine dev (pyLines out) with
    | none => mPure none
    | some line =>
      match parseMountLine line with
      | none => mThrow
      | some mi => mPure (some mi)))

/-- Pure value of `_get_mount_info` given the oracle (for statements). -/
def mountInfoPure (env : Env) (dev : String) : Option MountInfo :=
  match env.mountList with
  | none => none
  | some out =>
    match findMountLine dev (pyLines out) with
    | none => none
    | some line => parseMountLine line

/-- Health snapshot of `_check_raid_status` (lines 326-352). -/
structure RaidStatus where
  healthy : Bool
  message : String
deriving DecidableEq

/-- The line loop of `_check_raid_status` (lines 335-345): a `State` line
whose value does not contain `clean` or a positive `Failed Devices` count
marks the status unhealthy; `none` is a raised `IndexError`/`ValueError`. -/
def raidStatusLoop : List String → RaidStatus → Option RaidStatus
  | [], st => some st
  | line :: rest, st =>
    if containsStr "State" line then
      match (pySplitOn ':' line)[1]? with
      | none => none
      | some v =>
        let state := pyStrip v
        if !(containsStr "clean" (pyLower state)) then
          raidStatusLoop rest (RaidStatus.mk false ("RAID 상태: " ++ state))
        else raidStatusLoop rest st
    else if containsStr "Failed Devices" line then
      match (pySplitOn ':' line)[1]? with
      | none => none
      | some v =>
        match pyInt (pyStrip v) with
        | none => none
        | some failed =>
          if 0 < failed then
            raidStatusLoop rest
              (RaidStatus.mk false ("실패한 디스크: " ++ toString failed ++ "개"))
          else raidStatusLoop rest st
    else raidStatusLoop rest st

/-- `RAIDManager._check_raid_status` (lines 326-352): any exception ⇒
an unhealthy status. -/
def check_raid_status (env : Env) (dev : String) : M RaidStatus :=
  catchD (RaidStatus.mk false "상태 확인 실패") (
    mBind (qDetail env dev) (fun out =>
      match raidStatusLoop (pyLines out) (RaidStatus.mk true "정상") with
      | none => mThrow
      | some st => mPure st))

/-- Pure value of `_check_raid_status` given the oracle (for statements). -/
def statusPure (env : Env) (dev : String) : RaidStatus :=
  match env.mdadmDetail dev with
  | none => RaidStatus.mk false "상태 확인 실패"
  | some out =>
    (raidStatusLoop (pyLines out) (RaidStatus.mk true "정상")).getD
      (RaidStatus.mk false "상태 확인 실패")

/-- `RAIDManager.remount_device` (lines 282-324).  Note the order in the
source: the `umount` (line 296) runs BEFORE the RAID status check
(lines 299-305). -/
def remount_device (env : Env) (dev : String) : M Bool :=
  catchD false (
    mBind (get_mount_info env dev) (fun mi =>
    match mi with
    | none => mPure false
    | some info =>
      mBind (runCmd env (ExtCall.umount dev)) (fun _ =>
      mBind (if pyStarts "/dev/md" dev then
               mBind (check_raid_status env dev) (fun st =>
               if !st.healthy then ask env PromptTag.remountUnhealthy
               else mPure true)
             else mPure true) (fun cont =>
      if cont then
        mBind (update_fstab env dev info.mountpoint) (fun _ =>
        mBind (if pyStarts "/dev/md" dev then
                 runCmd env (ExtCall.mount dev info.mountpoint)
               else runCmd env ExtCall.mountAll) (fun _ =>
        mPure true))
      else mPure false))))

/-- Python `min(l)` over a nonempty sequence; `none` is the `ValueError`
raised on an empty one (line 265 of the source). -/
def listMin : List Int → Option Int
  | [] => none
  | a :: as => some (as.foldl min a)

/-- Python `max(l)`; `none` on the empty sequence. -/
def listMax : List Int → Option Int
  | [] => none
  | a :: as => some (as.foldl max a)

/-- `RAIDManager.recommend_raid_level` (lines 258-270).  The result is
`none` when `min()`/`max()` raise on an empty size list with
`num_disks >= 4` (there is no `try` around this method). -/
def recommend_raid_level (num_disks : Int) (disk_sizes : List Int) : Option Int :=
  if num_disks = 2 then some 1
  else if num_disks = 3 then some 5
  else if 4 ≤ num_disks then
    match listMin disk_sizes, listMax disk_sizes with
    | some mn, some mx => if mn = mx then some 6 else some 5
    | _, _ => none
  else some 0

/-! ## String lemmas -/

theorem listSub_nil (hay : List Char) : listSub [] hay = true := by
  cases hay <;> simp [listSub, listStarts]

theorem listStarts_self_append (n r : List Char) : listStarts n (n ++ r) = true := by
  induction n with
  | nil => simp [listStarts]
  | cons a as ih => simp [listStarts, ih]

theorem listSub_self_append (n r : List Char) : listSub n (n ++ r) = true := by
  cases n with
  | nil => simpa using listSub_nil r
  | cons c cs =>
    rw [List.cons_append]
    show (listStarts (c :: cs) (c :: (cs ++ r)) || listSub (c :: cs) (cs ++ r)) = true
    have h := listStarts_self_append (c :: cs) r
    rw [List.cons_append] at h
    rw [h, Bool.true_or]

theorem listSub_append_mid (p n s : List Char) : listSub n (p ++ (n ++ s)) = true := by
  induction p with
  | nil => simpa using listSub_self_append n s
  | cons c cs ih => simp [listSub, ih]

theorem listSub_prefix2 (a b r : List Char) : listSub (a ++ b) (a ++ (b ++ r)) = true := by
  rw [← List.append_assoc]
  exact listSub_self_append (a ++ b) r

theorem containsStr_empty (hay : String) : containsStr "" hay = true :=
  listSub_nil (chars hay)

theorem containsStr_uuid_entry (uuid mp : String) (lvl : Nat) :
    containsStr uuid (fstab_entry_for uuid mp lvl) = true := by
  show listSub (chars uuid) (chars (fstab_entry_for uuid mp lvl)) = true
  simp only [chars, fstab_entry_for, String.data_append, List.append_assoc]
  exact listSub_append_mid _ _ _

theorem containsStr_uuidkey_entry (uuid mp : String) (lvl : Nat) :
    containsStr ("UUID=" ++ uuid) (fstab_entry_for uuid mp lvl) = true := by
  show listSub (chars ("UUID=" ++ uuid)) (chars (fstab_entry_for uuid mp lvl)) = true
  simp only [chars, fstab_entry_for, String.data_append, List.append_assoc]
  exact listSub_prefix2 _ _ _

/-! ## Reduction lemmas for the effectful functions -/

/-- Pure value of `_check_disk_health` given the oracle. -/
def healthPure (env : Env) (disk : String) : Bool :=
  match env.smartctl disk with
  | none => true
  | some out => containsStr "PASSED" out

theorem check_disk_health_eq (env : Env) (disk : String) (s : St) :
    check_disk_health env disk s =
      (s, [ExtCall.smartctl disk], some (healthPure env disk)) := by
  cases h : env.smartctl disk <;>
    simp [check_disk_health, catchD, mBind, qSmartctl, mPure, healthPure, h]

theorem checkHealthLoop_spec (env : Env) (disks : List String) (s : St) :
    ∃ t b, checkHealthLoop env disks s = (s, t, some b) ∧
      t.all (fun c => !(isMutating c)) = true := by
  induction disks generalizing s with
  | nil => exact ⟨[], true, rfl, rfl⟩
  | cons d ds ih =>
    obtain ⟨t, b, ht, hm⟩ := ih s
    by_cases hh : healthPure env d = true
    · refine ⟨ExtCall.smartctl d :: t, b, ?_, ?_⟩
      · simp [checkHealthLoop, mBind, check_disk_health_eq, hh, ht]
      · simp [List.all_cons, hm, show isMutating (ExtCall.smartctl d) = false from rfl]
    · rw [Bool.not_eq_true] at hh
      by_cases ho : env.confirmAnswer (PromptTag.healthOverride d) = true
      · refine ⟨ExtCall.smartctl d :: ExtCall.confirm (PromptTag.healthOverride d) :: t,
          b, ?_, ?_⟩
        · simp [checkHealthLoop, mBind, check_disk_health_eq, hh, ask, ho, ht]
        · simp [List.all_cons, hm,
            show isMutating (ExtCall.smartctl d) = false from rfl,
            show isMutating (ExtCall.confirm (PromptTag.healthOverride d)) = false from rfl]
      · rw [Bool.not_eq_true] at ho
        refine ⟨[ExtCall.smartctl d, ExtCall.confirm (PromptTag.healthOverride d)],
          false, ?_, ?_⟩
        · simp [checkHealthLoop, mBind, check_disk_health_eq, hh, ask, ho, mPure]
        · simp [List.all_cons,
            show isMutating (ExtCall.smartctl d) = false from rfl,
            show isMutating (ExtCall.confirm (PromptTag.healthOverride d)) = false from rfl]

theorem get_raid_level_eq (env : Env) (dev : String) (s : St) :
    get_raid_level env dev s =
      (s, [ExtCall.mdadmDetail dev], some (raidLevelPure env dev)) := by
  cases h : env.mdadmDetail dev with
  | none => simp [get_raid_level, raidLevelPure, catchD, mBind, qDetail, h]
  | some out =>
    cases hp : parseRaidLevel (pyLines out) <;>
      simp [get_raid_level, raidLevelPure, catchD, mBind, qDetail, mThrow, mPure, h, hp]

theorem update_fstab_ok (env : Env) (dev mp : String) (s : St) (u : String)
    (hu : env.blkid dev = some u) (hb : env.cmdFails ExtCall.fstabBackup = false) :
    update_fstab env dev mp s =
      (St.mk (s.fstab ++ [fstab_entry_for (pyStrip u) mp (raidLevelPure env dev)]),
       [ExtCall.blkid dev, ExtCall.mdadmDetail dev, ExtCall.fstabBackup,
        ExtCall.fstabWrite],
       some ()) := by
  simp [update_fstab, mBind, qBlkid, hu, get_raid_level_eq, runCmd, hb,
    appendFstab, appendEntryLines]

theorem get_mount_info_eq (env : Env) (dev : String) (s : St) :
    get_mount_info env dev s =
      (s, [ExtCall.mountCmd], some (mountInfoPure env dev)) := by
  cases h : env.mountList with
  | none => simp [get_mount_info, mountInfoPure, catchD, mBind, qMountList, h]
  | some out =>
    cases hf : findMountLine dev (pyLines out) with
    | none =>
      simp [get_mount_info, mountInfoPure, catchD, mBind, qMountList, mPure, h, hf]
    | some line =>
      cases hp : parseMountLine line <;>
        simp [get_mount_info, mountInfoPure, catchD, mBind, qMountList, mPure,
          mThrow, h, hf, hp]

theorem check_raid_status_eq (env : Env) (dev : String) (s : St) :
    check_raid_status env dev s =
      (s, [ExtCall.mdadmDetail dev], some (statusPure env dev)) := by
  cases h : env.mdadmDetail dev with
  | none => simp [check_raid_status, statusPure, catchD, mBind, qDetail, h]
  | some out =>
    cases hp : raidStatusLoop (pyLines out) (RaidStatus.mk true "정상") <;>
      simp [check_raid_status, statusPure, catchD, mBind, qDetail, mThrow, mPure, h, hp]

/-- Declining the very first confirmation: `setup_raid` stops at once. -/
theorem setup_raid_declined (env : Env) (disks : List String) (level : Nat)
    (dev mp : String) (s : St) (h : env.confirmAnswer PromptTag.initial = false) :
    setup_raid env disks level dev mp s =
      (s, [ExtCall.confirm PromptTag.initial], some false) := by
  simp [setup_raid, catchD, mBind, ask, h, mPure]

/-! ## Claim C4 -/

/-- C4: if the initial destructive-intent confirmation is declined,
`setup_raid` returns `False` and performs zero external mutating calls —
the trace holds nothing but the confirmation prompt itself, and the
persistent mount table is unchanged. -/
theorem setup_raid_decline_no_effects (env : Env) (disks : List String)
    (level : Nat) (dev mp : String) (s : St)
    (h : env.confirmAnswer PromptTag.initial = false) :
    setup_raid env disks level dev mp s =
      (s, [ExtCall.confirm PromptTag.initial], some false) :=
  setup_raid_declined env disks level dev mp s h

def envDecline : Env := Env.mk (fun _ => false) (fun _ => none) (fun _ => none)
  (fun _ => none) (fun _ => none) none (fun _ => false)

theorem setup_raid_decline_no_effects_witness :
    setup_raid envDecline ["/dev/sda", "/dev/sdb"] 1 "/dev/md0" "/mnt/raid"
        (St.mk ["UUID=x /a ext4 defaults 0 0"]) =
      (St.mk ["UUID=x /a ext4 defaults 0 0"],
       [ExtCall.confirm PromptTag.initial], some false) :=
  setup_raid_decline_no_effects envDecline ["/dev/sda", "/dev/sdb"] 1 "/dev/md0"
    "/mnt/raid" (St.mk ["UUID=x /a ext4 defaults 0 0"]) rfl

/-! ## Claim C3 -/

/-- C3: with a RAID level from the table and fewer disks than its minimum
count, `setup_raid` returns `False`, leaves the mount table unchanged, and
the trace contains no mutating call (no partitioning, array creation,
formatting, mounting, or file write) — only prompts and health queries. -/
theorem setup_raid_insufficient_disks_no_effects (env : Env)
    (disks : List String) (level m : Nat) (dev mp : String) (s : St)
    (hm : min_disks level = some m) (hlen : disks.length < m) :
    (setup_raid env disks level dev mp s).1 = s ∧
    (setup_raid env disks level dev mp s).2.2 = some false ∧
    ((setup_raid env disks level dev mp s).2.1.all fun c => !(isMutating c)) = true := by
  by_cases hc : env.confirmAnswer PromptTag.initial = true
  case neg =>
    rw [Bool.not_eq_true] at hc
    rw [setup_raid_declined env disks level dev mp s hc]
    exact ⟨rfl, rfl, rfl⟩
  case pos =>
    obtain ⟨t, b, ht, hall⟩ := checkHealthLoop_spec env disks s
    cases b
    · have hrun : setup_raid env disks level dev mp s =
          (s, ExtCall.confirm PromptTag.initial :: t, some false) := by
        simp [setup_raid, catchD, mBind, ask, hc, ht, mPure]
      rw [hrun]
      exact ⟨rfl, rfl, by
        simp [List.all_cons, hall,
          show isMutating (ExtCall.confirm PromptTag.initial) = false from rfl]⟩
    · have hrun : setup_raid env disks level dev mp s =
          (s, ExtCall.confirm PromptTag.initial :: t, some false) := by
        simp [setup_raid, catchD, mBind, ask, hc, ht, hm, mPure, hlen]
      rw [hrun]
      exact ⟨rfl, rfl, by
        simp [List.all_cons, hall,
          show isMutating (ExtCall.confirm PromptTag.initial) = false from rfl]⟩

def envHealthy : Env := Env.mk (fun _ => true) (fun _ => some "PASSED")
  (fun _ => some 1000) (fun _ => none) (fun _ => none) none (fun _ => false)

theorem setup_raid_insufficient_disks_no_effects_witness :
    min_disks 5 = some 3 ∧ (["/dev/sda"] : List String).length < 3 ∧
    ((setup_raid envHealthy ["/dev/sda"] 5 "/dev/md0" "/mnt/raid" (St.mk [])).1 =
        St.mk [] ∧
      (setup_raid envHealthy ["/dev/sda"] 5 "/dev/md0" "/mnt/raid" (St.mk [])).2.2 =
        some false ∧
      ((setup_raid envHealthy ["/dev/sda"] 5 "/dev/md0" "/mnt/raid"
          (St.mk [])).2.1.all fun c => !(isMutating c)) = true) :=
  ⟨rfl, by decide,
    setup_raid_insufficient_disks_no_effects envHealthy ["/dev/sda"] 5 3 "/dev/md0"
      "/mnt/raid" (St.mk []) rfl (by decide)⟩

/-! ## Claim C5 -/

/-- C5: the fstab entry built for the persistent table carries the option
string `defaults,nofail,x-systemd.device-timeout=5` for RAID levels 1, 5
and 6, and `defaults,nofail,x-systemd.device-timeout=3` for level 0 and
every other level outside that set. -/
theorem fstab_entry_mount_options (uuid mp : String) (level : Nat) :
    ((level = 1 ∨ level = 5 ∨ level = 6) →
      fstab_entry_for uuid mp level =
        "UUID=" ++ uuid ++ " " ++ mp ++ " ext4 " ++
          "defaults,nofail,x-systemd.device-timeout=5" ++ " 0 0") ∧
    (¬(level = 1 ∨ level = 5 ∨ level = 6) →
      fstab_entry_for uuid mp level =
        "UUID=" ++ uuid ++ " " ++ mp ++ " ext4 " ++
          "defaults,nofail,x-systemd.device-timeout=3" ++ " 0 0") := by
  constructor
  · intro h
    have hm : level ∈ ([1, 5, 6] : List Nat) := by simpa using h
    simp only [fstab_entry_for, mount_options_for]
    rw [if_pos hm]
    rfl
  · intro h
    have hm : level ∉ ([1, 5, 6] : List Nat) := by simpa using h
    simp only [fstab_entry_for, mount_options_for]
    rw [if_neg hm]
    rfl

theorem fstab_entry_mount_options_witness :
    fstab_entry_for "abc" "/mnt/r" 5 =
      "UUID=" ++ "abc" ++ " " ++ "/mnt/r" ++ " ext4 " ++
        "defaults,nofail,x-systemd.device-timeout=5" ++ " 0 0" ∧
    fstab_entry_for "abc" "/mnt/r" 0 =
      "UUID=" ++ "abc" ++ " " ++ "/mnt/r" ++ " ext4 " ++
        "defaults,nofail,x-systemd.device-timeout=3" ++ " 0 0" :=
  ⟨(fstab_entry_mount_options "abc" "/mnt/r" 5).1 (Or.inr (Or.inl rfl)),
   (fstab_entry_mount_options "abc" "/mnt/r" 0).2 (by decide)⟩

/-! ## Claim C10 -/

/-- C10: removing entries for the empty-string UUID deletes every line of
the persistent table, because the empty string is a substring of every
line under the substring-match removal of `_remove_from_fstab`. -/
theorem remove_empty_uuid_clears_table (lines : List String) :
    removeLinesForUuid "" lines = [] := by
  induction lines with
  | nil => rfl
  | cons l ls ih =>
    simp only [removeLinesForUuid, List.filter_cons] at ih ⊢
    rw [containsStr_empty l]
    simpa using ih

/-! ## Claim C6 -/

/-- C6 counterexample: when the original table already holds a line
containing the entry's UUID, appending and then removing by UUID does NOT
restore the original table — the removal wipes the pre-existing line too. -/
theorem append_remove_roundtrip_counterexample :
    removeLinesForUuid "u"
        (appendEntryLines ["UUID=u /a ext4 defaults 0 0"]
          (fstab_entry_for "u" "/b" 0)) = [] ∧
    ([] : List String) ≠ ["UUID=u /a ext4 defaults 0 0"] := by
  exact ⟨by decide, by decide⟩

/-- C6 (amended): provided no line of the original table contains the
entry's UUID as a substring, appending the built entry and then removing
entries for that UUID restores the original table exactly (order
preserved); and the append itself keeps every pre-existing line verbatim
and adds exactly one new line. -/
theorem append_remove_roundtrip_fresh_uuid (lines : List String)
    (uuid mp : String) (lvl : Nat)
    (h : (lines.all fun l => !(containsStr uuid l)) = true) :
    appendEntryLines lines (fstab_entry_for uuid mp lvl) =
      lines ++ [fstab_entry_for uuid mp lvl] ∧
    removeLinesForUuid uuid (appendEntryLines lines (fstab_entry_for uuid mp lvl)) =
      lines := by
  refine ⟨rfl, ?_⟩
  have hkeep : lines.filter (fun line => !(containsStr uuid line)) = lines := by
    apply List.filter_eq_self.mpr
    intro a ha
    exact List.all_eq_true.mp h a ha
  have hdrop : ([fstab_entry_for uuid mp lvl].filter
      (fun line => !(containsStr uuid line))) = [] := by
    simp [List.filter_cons, containsStr_uuid_entry]
  simp only [appendEntryLines, removeLinesForUuid, List.filter_append, hkeep,
    hdrop, List.append_nil]

theorem append_remove_roundtrip_fresh_uuid_witness :
    appendEntryLines ["UUID=w /a ext4 rw 0 0"] (fstab_entry_for "u" "/b" 1) =
      ["UUID=w /a ext4 rw 0 0"] ++ [fstab_entry_for "u" "/b" 1] ∧
    removeLinesForUuid "u"
        (appendEntryLines ["UUID=w /a ext4 rw 0 0"] (fstab_entry_for "u" "/b" 1)) =
      ["UUID=w /a ext4 rw 0 0"] :=
  append_remove_roundtrip_fresh_uuid ["UUID=w /a ext4 rw 0 0"] "u" "/b" 1 (by decide)

/-! ## Claim C7 -/

theorem sizesCheck_iff (l : List Int) :
    sizesCheck l = true ↔ (l ≠ [] ∧ ∀ x ∈ l, ∀ y ∈ l, x = y) := by
  unfold sizesCheck
  rw [beq_iff_eq, ← List.card_toFinset, Finset.card_eq_one]
  constructor
  · rintro ⟨a, ha⟩
    have hmem : ∀ x ∈ l, x = a := by
      intro x hx
      have hx2 : x ∈ l.toFinset := List.mem_toFinset.mpr hx
      rw [ha] at hx2
      simpa using hx2
    refine ⟨?_, ?_⟩
    · intro hnil
      subst hnil
      rw [List.toFinset_nil] at ha
      exact (Finset.singleton_ne_empty a) ha.symm
    · intro x hx y hy
      rw [hmem x hx, hmem y hy]
  · rintro ⟨hne, hall⟩
    obtain ⟨b, bs, rfl⟩ := List.exists_cons_of_ne_nil hne
    refine ⟨b, ?_⟩
    ext x
    simp only [List.mem_toFinset, Finset.mem_singleton]
    constructor
    · intro hx
      exact hall x hx b (by simp)
    · intro hx
      subst hx
      simp

theorem collectSizes_ok (env : Env) (disks : List String) (s : St)
    (h : (disks.all fun d => (env.blockdevSize d).isSome) = true) :
    collectSizes env disks s =
      (s, disks.map ExtCall.blockdev,
       some (disks.map (fun d => (env.blockdevSize d).getD 0))) := by
  induction disks with
  | nil => rfl
  | cons d ds ih =>
    simp only [List.all_cons, Bool.and_eq_true] at h
    obtain ⟨hd, hds⟩ := h
    obtain ⟨v, hv⟩ := Option.isSome_iff_exists.mp hd
    simp [collectSizes, mBind, qBlockdev, hv, ih hds, mPure]

theorem collectSizes_fail (env : Env) (disks : List String) (s : St)
    (h : (disks.any fun d => (env.blockdevSize d).isNone) = true) :
    ∃ t, collectSizes env disks s = (s, t, none) := by
  induction disks with
  | nil => simp at h
  | cons d ds ih =>
    cases hv : env.blockdevSize d with
    | none =>
      exact ⟨[ExtCall.blockdev d], by simp [collectSizes, mBind, qBlockdev, hv]⟩
    | some v =>
      have hds : (ds.any fun x => (env.blockdevSize x).isNone) = true := by
        simpa [List.any_cons, hv] using h
      obtain ⟨t, ht⟩ := ih hds
      exact ⟨ExtCall.blockdev d :: t,
        by simp [collectSizes, mBind, qBlockdev, hv, ht]⟩

/-- C7 counterexample: on the empty disk list no capacity query is made
and none fails, every queried capacity is (vacuously) identical, yet
`_check_disk_sizes` returns `False` because `len(set([])) == 1` is false —
so "returns true iff all queried capacities are identical" fails for the
empty list. -/
theorem check_disk_sizes_empty_counterexample :
    (check_disk_sizes envHealthy [] (St.mk [])).2.2 = some false ∧
    (∀ x ∈ ([] : List Int), ∀ y ∈ ([] : List Int), x = y) :=
  ⟨rfl, by simp⟩

/-- C7 (amended): `_check_disk_sizes` returns `False` whenever any
capacity query fails (fail-closed) and on the empty disk list; on a
nonempty disk list with all queries answered, it returns `True` exactly
when all queried capacities are identical. -/
theorem check_disk_sizes_characterization (env : Env) (disks : List String)
    (s : St) :
    ((disks.any fun d => (env.blockdevSize d).isNone) = true →
      (check_disk_sizes env disks s).2.2 = some false) ∧
    (disks = [] → (check_disk_sizes env disks s).2.2 = some false) ∧
    (disks ≠ [] → (disks.all fun d => (env.blockdevSize d).isSome) = true →
      ((check_disk_sizes env disks s).2.2 = some true ↔
        ∀ x ∈ disks.map (fun d => (env.blockdevSize d).getD 0),
        ∀ y ∈ disks.map (fun d => (env.blockdevSize d).getD 0), x = y)) := by
  refine ⟨?_, ?_, ?_⟩
  · intro h
    obtain ⟨t, ht⟩ := collectSizes_fail env disks s h
    simp [check_disk_sizes, catchD, mBind, ht]
  · intro h
    subst h
    rfl
  · intro hne hall
    have hrun : check_disk_sizes env disks s =
        (s, disks.map ExtCall.blockdev,
         some (sizesCheck (disks.map fun d => (env.blockdevSize d).getD 0))) := by
      simp [check_disk_sizes, catchD, mBind, collectSizes_ok env disks s hall, mPure]
    have hLne : disks.map (fun d => (env.blockdevSize d).getD 0) ≠ [] := by
      cases disks with
      | nil => exact absurd rfl hne
      | cons d ds => simp
    rw [hrun]
    show some (sizesCheck _) = some true ↔ _
    rw [Option.some_inj, sizesCheck_iff]
    exact and_iff_right hLne

theorem check_disk_sizes_characterization_witness :
    (check_disk_sizes envHealthy ["/dev/sda", "/dev/sdb"] (St.mk [])).2.2 =
      some true :=
  ((check_disk_sizes_characterization envHealthy ["/dev/sda", "/dev/sdb"]
      (St.mk [])).2.2 (by decide) (by decide)).mpr (by decide)

/-! ## Claim C8 -/

theorem foldl_min_le (as : List Int) (a : Int) : as.foldl min a ≤ a := by
  induction as generalizing a with
  | nil => exact le_refl a
  | cons b bs ih =>
    rw [List.foldl_cons]
    exact le_trans (ih (min a b)) (min_le_left a b)

theorem le_foldl_max (as : List Int) (a : Int) : a ≤ as.foldl max a := by
  induction as generalizing a with
  | nil => exact le_refl a
  | cons b bs ih =>
    rw [List.foldl_cons]
    exact le_trans (le_max_left a b) (ih (max a b))

theorem foldl_minmax_eq_iff (as : List Int) (a : Int) :
    (as.foldl min a = as.foldl max a) ↔ (as.all fun x => x == a) = true := by
  induction as generalizing a with
  | nil => simp
  | cons b bs ih =>
    rw [List.foldl_cons, List.foldl_cons, List.all_cons]
    constructor
    · intro h
      have h1 : bs.foldl min (min a b) ≤ min a b := foldl_min_le bs (min a b)
      have h2 : max a b ≤ bs.foldl max (max a b) := le_foldl_max bs (max a b)
      rw [h] at h1
      have hmm : max a b ≤ min a b := le_trans h2 h1
      have hab : a = b :=
        le_antisymm (le_trans (le_max_left a b) (le_trans hmm (min_le_right a b)))
          (le_trans (le_max_right a b) (le_trans hmm (min_le_left a b)))
      subst hab
      rw [min_self, max_self] at h
      have hrec := (ih a).mp h
      simp [hrec]
    · intro h
      rw [Bool.and_eq_true, beq_iff_eq] at h
      obtain ⟨hb, hbs⟩ := h
      subst hb
      rw [min_self, max_self]
      exact (ih b).mpr hbs

theorem allEqHead_iff (a : Int) (as : List Int) :
    ((as.all fun x => x == a) = true) ↔ (∀ x ∈ a :: as, ∀ y ∈ a :: as, x = y) := by
  rw [List.all_eq_true]
  constructor
  · intro h x hx y hy
    have hx2 : x = a := by
      rcases List.mem_cons.mp hx with h1 | h1
      · exact h1
      · exact beq_iff_eq.mp (h x h1)
    have hy2 : y = a := by
      rcases List.mem_cons.mp hy with h1 | h1
      · exact h1
      · exact beq_iff_eq.mp (h y h1)
    rw [hx2, hy2]
  · intro h x hx
    exact beq_iff_eq.mpr (h x (List.mem_cons_of_mem a hx) a (List.mem_cons_self a as))

/-- C8 counterexample: `recommend_raid_level(4, [])` hits `min([])`, which
raises `ValueError` (modelled as `none`) instead of returning level 6,
although "all listed sizes are equal" holds vacuously for the empty list. -/
theorem recommend_level_empty_sizes_counterexample :
    recommend_raid_level 4 [] = none ∧
    (∀ x ∈ ([] : List Int), ∀ y ∈ ([] : List Int), x = y) ∧
    (none : Option Int) ≠ some 6 :=
  ⟨by decide, by simp, by decide⟩

/-- C8 (amended): the recommendation policy — 2 disks ⇒ level 1; 3 disks ⇒
level 5; at least 4 disks and a NONEMPTY size list ⇒ level 6 when all
listed sizes are equal and level 5 otherwise; 0 or 1 disks ⇒ level 0.
With at least 4 disks and an empty size list the method raises instead. -/
theorem recommend_level_policy (n : Int) (sizes : List Int) :
    (n = 2 → recommend_raid_level n sizes = some 1) ∧
    (n = 3 → recommend_raid_level n sizes = some 5) ∧
    (4 ≤ n → sizes ≠ [] →
      ((∀ x ∈ sizes, ∀ y ∈ sizes, x = y) → recommend_raid_level n sizes = some 6) ∧
      (¬(∀ x ∈ sizes, ∀ y ∈ sizes, x = y) → recommend_raid_level n sizes = some 5)) ∧
    ((n = 0 ∨ n = 1) → recommend_raid_level n sizes = some 0) := by
  refine ⟨?_, ?_, ?_, ?_⟩
  · intro h
    subst h
    simp [recommend_raid_level]
  · intro h
    subst h
    simp [recommend_raid_level]
  · intro h4 hne
    have h2 : n ≠ 2 := by omega
    have h3 : n ≠ 3 := by omega
    obtain ⟨b, bs, rfl⟩ := List.exists_cons_of_ne_nil hne
    constructor
    · intro hall
      have hb : (bs.all fun x => x == b) = true := (allEqHead_iff b bs).mpr hall
      have hfold : bs.foldl min b = bs.foldl max b := (foldl_minmax_eq_iff bs b).mpr hb
      simp [recommend_raid_level, h2, h3, h4, listMin, listMax, hfold]
    · intro hall
      have hb : ¬((bs.all fun x => x == b) = true) := fun hc =>
        hall ((allEqHead_iff b bs).mp hc)
      have hfold : ¬(bs.foldl min b = bs.foldl max b) := fun hc =>
        hb ((foldl_minmax_eq_iff bs b).mp hc)
      simp [recommend_raid_level, h2, h3, h4, listMin, listMax, hfold]
  · intro h
    have h2 : n ≠ 2 := by rcases h with h | h <;> omega
    have h3 : n ≠ 3 := by rcases h with h | h <;> omega
    have h4 : ¬(4 ≤ n) := by rcases h with h | h <;> omega
    simp [recommend_raid_level, h2, h3, h4]

theorem recommend_level_policy_witness :
    recommend_raid_level 4 [100, 100, 100, 100] = some 6 ∧
    recommend_raid_level 4 [100, 50, 100, 100] = some 5 :=
  ⟨((recommend_level_policy 4 [100, 100, 100, 100]).2.2.1 (by decide)
      (by decide)).1 (by decide),
   ((recommend_level_policy 4 [100, 50, 100, 100]).2.2.1 (by decide)
      (by decide)).2 (by decide)⟩

/-! ## Claim C9 -/

theorem parseRaidLevel_skip (pre rest : List String)
    (h : (pre.all fun l => !(containsStr "Raid Level" l)) = true) :
    parseRaidLevel (pre ++ rest) = parseRaidLevel rest := by
  induction pre with
  | nil => rfl
  | cons l ls ih =>
    rw [List.cons_append]
    cases hcl : containsStr "Raid Level" l with
    | false =>
      have hls : (ls.all fun x => !(containsStr "Raid Level" x)) = true := by
        simpa [List.all_cons, hcl] using h
      simp only [parseRaidLevel, hcl, Bool.false_eq_true, if_false]
      exact ih hls
    | true =>
      exfalso
      simp [List.all_cons, hcl] at h

theorem parseRaidLevel_first6 (line : String) (rest : List String) (w : String)
    (hrl : containsStr "Raid Level" line = true)
    (hw : (pySplitOn ':' line)[1]? = some w)
    (h0 : containsStr "raid0" (pyLower (pyStrip w)) = false)
    (h1 : containsStr "raid1" (pyLower (pyStrip w)) = false)
    (h5 : containsStr "raid5" (pyLower (pyStrip w)) = false)
    (h6 : containsStr "raid6" (pyLower (pyStrip w)) = true) :
    parseRaidLevel (line :: rest) = some 6 := by
  simp [parseRaidLevel, hrl, hw, h0, h1, h5, h6]

theorem parseRaidLevel_nomatch (lines : List String)
    (h : ∀ l ∈ lines, containsStr "Raid Level" l = true →
      ∀ w, (pySplitOn ':' l)[1]? = some w →
        (containsStr "raid0" (pyLower (pyStrip w)) = false ∧
         containsStr "raid1" (pyLower (pyStrip w)) = false ∧
         containsStr "raid5" (pyLower (pyStrip w)) = false ∧
         containsStr "raid6" (pyLower (pyStrip w)) = false)) :
    parseRaidLevel lines = some 0 ∨ parseRaidLevel lines = none := by
  induction lines with
  | nil => exact Or.inl rfl
  | cons l ls ih =>
    have hls := fun x hx => h x (List.mem_cons_of_mem l hx)
    cases hrl : containsStr "Raid Level" l with
    | false => simpa [parseRaidLevel, hrl] using ih hls
    | true =>
      cases hw : (pySplitOn ':' l)[1]? with
      | none => exact Or.inr (by simp [parseRaidLevel, hrl, hw])
      | some w =>
        obtain ⟨h0, h1, h5, h6⟩ := h l (List.mem_cons_self l ls) hrl w hw
        simpa [parseRaidLevel, hrl, hw, h0, h1, h5, h6] using ih hls

def envRaid16 : Env := Env.mk (fun _ => false) (fun _ => none) (fun _ => none)
  (fun _ => none) (fun _ => some "Raid Level : raid1\nRaid Level : raid6") none
  (fun _ => false)

/-- C9 counterexample: the detail text holds a `Raid Level` line whose
value contains `raid6` (the second line), yet `_get_raid_level` returns 1,
because it returns at the FIRST `Raid Level` line that matches one of the
substrings — so "returns 6 when a line has a value containing raid6" is
false as stated. -/
theorem get_raid_level_first_match_counterexample :
    (get_raid_level envRaid16 "/dev/md0" (St.mk [])).2.2 = some 1 ∧
    "Raid Level : raid6" ∈ pyLines "Raid Level : raid1\nRaid Level : raid6" ∧
    containsStr "Raid Level" "Raid Level : raid6" = true ∧
    (pySplitOn ':' "Raid Level : raid6")[1]? = some " raid6" ∧
    containsStr "raid6" (pyLower (pyStrip " raid6")) = true ∧
    some (1 : Nat) ≠ some 6 :=
  ⟨by decide, by decide, by decide, by decide, by decide, by decide⟩

/-- C9 (amended): `_get_raid_level` returns 0 when the detail query fails;
returns 0 when no `Raid Level` line carries a value containing any of
`raid0`, `raid1`, `raid5`, `raid6` (a `Raid Level` line without `:` makes
the method raise, which the catch-all also maps to 0); and returns 6 when
the FIRST `Raid Level` line of the text has a value containing `raid6` and
none of the higher-priority substrings `raid0`, `raid1`, `raid5`. -/
theorem get_raid_level_parse (env : Env) (dev : String) (s : St) :
    (env.mdadmDetail dev = none → (get_raid_level env dev s).2.2 = some 0) ∧
    (∀ out, env.mdadmDetail dev = some out →
      ((∀ l ∈ pyLines out, containsStr "Raid Level" l = true →
          ∀ w, (pySplitOn ':' l)[1]? = some w →
            (containsStr "raid0" (pyLower (pyStrip w)) = false ∧
             containsStr "raid1" (pyLower (pyStrip w)) = false ∧
             containsStr "raid5" (pyLower (pyStrip w)) = false ∧
             containsStr "raid6" (pyLower (pyStrip w)) = false)) →
        (get_raid_level env dev s).2.2 = some 0) ∧
      (∀ pre line rest w, pyLines out = pre ++ line :: rest →
        (pre.all fun l => !(containsStr "Raid Level" l)) = true →
        containsStr "Raid Level" line = true →
        (pySplitOn ':' line)[1]? = some w →
        containsStr "raid0" (pyLower (pyStrip w)) = false →
        containsStr "raid1" (pyLower (pyStrip w)) = false →
        containsStr "raid5" (pyLower (pyStrip w)) = false →
        containsStr "raid6" (pyLower (pyStrip w)) = true →
        (get_raid_level env dev s).2.2 = some 6)) := by
  constructor
  · intro h
    rw [get_raid_level_eq]
    simp [raidLevelPure, h]
  · intro out hout
    constructor
    · intro h
      rw [get_raid_level_eq]
      rcases parseRaidLevel_nomatch (pyLines out) h with hp | hp <;>
        simp [raidLevelPure, hout, hp]
    · intro pre line rest w hsplit hpre hrl hw h0 h1 h5 h6
      rw [get_raid_level_eq]
      have hp : parseRaidLevel (pyLines out) = some 6 := by
        rw [hsplit, parseRaidLevel_skip pre (line :: rest) hpre]
        exact parseRaidLevel_first6 line rest w hrl hw h0 h1 h5 h6
      simp [raidLevelPure, hout, hp]

def envRaid6 : Env := Env.mk (fun _ => false) (fun _ => none) (fun _ => none)
  (fun _ => none) (fun _ => some "Raid Level : raid6") none (fun _ => false)

theorem get_raid_level_parse_witness :
    (get_raid_level envRaid6 "/dev/md0" (St.mk [])).2.2 = some 6 :=
  ((get_raid_level_parse envRaid6 "/dev/md0" (St.mk [])).2 "Raid Level : raid6"
      rfl).2 [] "Raid Level : raid6" [] " raid6" (by decide) (by decide)
    (by decide) (by decide) (by decide) (by decide) (by decide) (by decide)

/-! ## Claim C2 -/

/-- Does `a` occur strictly before the first occurrence of `b`? -/
def occursBefore (a b : ExtCall) : List ExtCall → Bool
  | [] => false
  | c :: cs =>
    if c = a then cs.contains b
    else if c = b then false
    else occursBefore a b cs

def envDegraded : Env := Env.mk (fun _ => false) (fun _ => none) (fun _ => none)
  (fun _ => some "u") (fun _ => some "     State : degraded")
  (some "/dev/md0 on /a type ext4 (rw,relatime)") (fun _ => false)

/-- C2 counterexample: for a RAID device with live mount info, an
unhealthy status and a declined override, `remount_device` produces the
trace mount-listing, `umount`, detail query, prompt — the health query
does NOT precede the `umount`; the code unmounts first (source line 296
versus line 301).  The abort does return `False`. -/
theorem remount_umount_before_health_counterexample :
    remount_device envDegraded "/dev/md0" (St.mk []) =
      (St.mk [], [ExtCall.mountCmd, ExtCall.umount "/dev/md0",
        ExtCall.mdadmDetail "/dev/md0", ExtCall.confirm PromptTag.remountUnhealthy],
       some false) ∧
    occursBefore (ExtCall.mdadmDetail "/dev/md0") (ExtCall.umount "/dev/md0")
      [ExtCall.mountCmd, ExtCall.umount "/dev/md0", ExtCall.mdadmDetail "/dev/md0",
       ExtCall.confirm PromptTag.remountUnhealthy] = false :=
  ⟨by decide, by decide⟩

/-- C2 (amended): for a device whose path starts with `/dev/md` and that
has live mount info, `remount_device` queries the RAID health status
immediately AFTER the `umount` call (not before), and an unhealthy status
with a declined override confirmation aborts with `False` — with the
device already unmounted. -/
theorem remount_health_after_umount_abort (env : Env) (dev : String) (s : St)
    (hmd : pyStarts "/dev/md" dev = true)
    (hmi : (mountInfoPure env dev).isSome = true)
    (hu : env.cmdFails (ExtCall.umount dev) = false)
    (hst : (statusPure env dev).healthy = false)
    (hconf : env.confirmAnswer PromptTag.remountUnhealthy = false) :
    remount_device env dev s =
      (s, [ExtCall.mountCmd, ExtCall.umount dev, ExtCall.mdadmDetail dev,
        ExtCall.confirm PromptTag.remountUnhealthy], some false) := by
  obtain ⟨info, hinfo⟩ := Option.isSome_iff_exists.mp hmi
  simp [remount_device, catchD, mBind, get_mount_info_eq, hinfo, hmd, runCmd, hu,
    check_raid_status_eq, hst, ask, hconf, mPure]

theorem remount_health_after_umount_abort_witness :
    remount_device envDegraded "/dev/md0" (St.mk ["keep"]) =
      (St.mk ["keep"], [ExtCall.mountCmd, ExtCall.umount "/dev/md0",
        ExtCall.mdadmDetail "/dev/md0", ExtCall.confirm PromptTag.remountUnhealthy],
       some false) :=
  remount_health_after_umount_abort envDegraded "/dev/md0" (St.mk ["keep"])
    (by decide) (by decide) (by decide) (by decide) (by decide)

/-! ## Claim C1 -/

/-- Number of table lines containing `UUID=<uuid>` as a substring. -/
def countUuidLines (uuid : String) (lines : List String) : Nat :=
  (lines.filter fun l => containsStr ("UUID=" ++ uuid) l).length

def envChange : Env := Env.mk (fun _ => true) (fun _ => some "PASSED")
  (fun _ => some 100) (fun _ => some "u\n") (fun _ => some "") none (fun _ => false)

/-- C1 counterexample: a table with exactly one live entry for UUID `u`
satisfies the at-most-one-per-UUID invariant, yet a single successful
`change_mount_point` on the device with that UUID leaves TWO entries for
`u` — the lifecycle operations do not preserve the invariant. -/
theorem uuid_invariant_counterexample :
    countUuidLines "u"
        ["UUID=u /a ext4 defaults,nofail,x-systemd.device-timeout=3 0 0"] ≤ 1 ∧
    (change_mount_point envChange "/dev/md0" "/b"
        (St.mk ["UUID=u /a ext4 defaults,nofail,x-systemd.device-timeout=3 0 0"])).2.2 =
      some true ∧
    ¬(countUuidLines "u"
        (change_mount_point envChange "/dev/md0" "/b"
          (St.mk ["UUID=u /a ext4 defaults,nofail,x-systemd.device-timeout=3 0 0"])).1.fstab ≤ 1) :=
  ⟨by decide, by decide, by decide⟩

/-- C1 (amended): a successful `change_mount_point` appends a fresh entry
for the device's UUID and removes nothing, so its final table is the old
table plus one more entry; whenever the UUID already had a live entry,
the resulting table has at least two — the at-most-one-entry-per-UUID
invariant is not preserved by `change_mount_point` (the old entry would
have to be removed first, which the code never does). -/
theorem change_mount_point_adds_second_entry (env : Env) (dev mp : String)
    (s : St) (u : String)
    (hu : env.blkid dev = some u)
    (h1 : env.cmdFails (ExtCall.umount dev) = false)
    (h2 : env.cmdFails (ExtCall.makedirs mp) = false)
    (h3 : env.cmdFails (ExtCall.mount dev mp) = false)
    (h4 : env.cmdFails ExtCall.fstabBackup = false) :
    change_mount_point env dev mp s =
      (St.mk (s.fstab ++ [fstab_entry_for (pyStrip u) mp (raidLevelPure env dev)]),
       [ExtCall.umount dev, ExtCall.makedirs mp, ExtCall.mount dev mp,
        ExtCall.blkid dev, ExtCall.mdadmDetail dev, ExtCall.fstabBackup,
        ExtCall.fstabWrite], some true) ∧
    (1 ≤ countUuidLines (pyStrip u) s.fstab →
      2 ≤ countUuidLines (pyStrip u) (change_mount_point env dev mp s).1.fstab) := by
  have hrun : change_mount_point env dev mp s =
      (St.mk (s.fstab ++ [fstab_entry_for (pyStrip u) mp (raidLevelPure env dev)]),
       [ExtCall.umount dev, ExtCall.makedirs mp, ExtCall.mount dev mp,
        ExtCall.blkid dev, ExtCall.mdadmDetail dev, ExtCall.fstabBackup,
        ExtCall.fstabWrite], some true) := by
    simp [change_mount_point, catchD, mBind, runCmd, h1, h2, h3,
      update_fstab_ok env dev mp s u hu h4, mPure]
  refine ⟨hrun, ?_⟩
  intro hold
  rw [hrun]
  show 2 ≤ countUuidLines (pyStrip u)
    (s.fstab ++ [fstab_entry_for (pyStrip u) mp (raidLevelPure env dev)])
  unfold countUuidLines at hold ⊢
  rw [List.filter_append, List.length_append]
  have hentry : (([fstab_entry_for (pyStrip u) mp (raidLevelPure env dev)]).filter
      fun l => containsStr ("UUID=" ++ pyStrip u) l).length = 1 := by
    simp [List.filter_cons, containsStr_uuidkey_entry]
  rw [hentry]
  omega

theorem change_mount_point_adds_second_entry_witness :
    2 ≤ countUuidLines "u"
      (change_mount_point envChange "/dev/md0" "/b"
        (St.mk ["UUID=u /a ext4 x 0 0"])).1.fstab :=
  (change_mount_point_adds_second_entry envChange "/dev/md0" "/b"
      (St.mk ["UUID=u /a ext4 x 0 0"]) "u\n" rfl rfl rfl rfl rfl).2 (by decide)

end RaidCli
